import Mathlib

/-!
# Verification of the tempest-wallet decision core

Shallow embedding of the algorithmic core of the tempest-wallet repository:

* `WalletCore.ts` — transaction risk assessment, suspicious-address check,
  gas-price multipliers, security checks, the send-transaction pipeline and
  the AI learning state;
* `TradingEngine.ts` — technical indicators (SMA, EMA, RSI, MACD), risk
  scoring, the strategy decision engine and the gas-optimization decision;
* `PriceService.ts` — price and historical-price retrieval with their
  fallback behaviour on collaborator failure;
* the Tempest API client — network-condition classification.

Numbers are modelled exactly: integer wei amounts become `Nat`, decimal
quantities become `Rat`.  JavaScript `Math.random()` draws are passed in as
explicit rational arguments in `[0,1)` so that nondeterministic code becomes
a deterministic function of its random input.  Floating-point arithmetic in
the source is modelled by exact rational arithmetic; every theorem that
depends on a spot where rounding could matter picks inputs where the float
and rational results agree.
-/

namespace Tempest

/-- Congestion levels as named in `WalletCore.analyzeNetworkConditions`
(`'low' | 'medium' | 'high' | 'apocalyptic'`).  The spec calls the top
level `critical`. -/
inductive WCCongestion
| low
| medium
| high
| apocalyptic
deriving DecidableEq

/-- Congestion levels as named in the Tempest API client
(`'low' | 'medium' | 'high' | 'critical'`). -/
inductive CongestionLevel
| low
| medium
| high
| critical
deriving DecidableEq

/-- Numeric rank of a congestion level, used to state monotonicity
(`low < medium < high < critical`). -/
def CongestionLevel.rank : CongestionLevel → Nat
| .low => 0
| .medium => 1
| .high => 2
| .critical => 3

/-- Risk levels of `RiskAssessment.level` in `types/wallet.ts`:
`'low' | 'medium' | 'high' | 'run_away'`. -/
inductive RiskLevel
| low
| medium
| high
| runAway
deriving DecidableEq

/-- Source `transactionFrequency` of the stored user behavior pattern. -/
inductive TxFrequency
| low
| medium
| high
| addicted
deriving DecidableEq

/-- Source `aiPersonality.riskTolerance` in the wallet config. -/
inductive RiskTolerance
| conservative
| moderate
| aggressive
| degenerate
| aiDecides
deriving DecidableEq

/-- Urgency levels for gas optimization decisions. -/
inductive Urgency
| low
| medium
| high
deriving DecidableEq

/-- Action of the strategy decision engine (`'buy' | 'sell' | 'hold'`). -/
inductive TradeAction
| buy
| sell
| hold
deriving DecidableEq

/-! ## WalletCore: suspicious-address check

`WalletCore.isSuspiciousAddress` tests the address against three regular
expressions (`/^0x000+/`, `/^0xdead/i`, `/^0x1{40}/`) and, when none
matches, additionally flags the address when `Math.random() < 0.05`.
Addresses are modelled as lists of characters; the random draw is the
explicit argument `rand`. -/

/-- Helper: `listStartsWith pat s` is true when `pat` is an initial segment of `s`
(the anchored-regex prefix test). -/
def listStartsWith : List Char → List Char → Bool
| [], _ => true
| _ :: _, [] => false
| p :: ps, c :: cs => p == c && listStartsWith ps cs

/-- The three fixed suspicious patterns of `isSuspiciousAddress`:
`/^0x000+/` (null-like addresses), `/^0xdead/i` (dead addresses, case
insensitive), `/^0x1{40}/` (all ones). -/
def matchesSuspiciousPattern (address : List Char) : Bool :=
  listStartsWith ['0', 'x', '0', '0', '0'] address ||
  listStartsWith ['0', 'x', 'd', 'e', 'a', 'd'] (address.map Char.toLower) ||
  listStartsWith ('0' :: 'x' :: List.replicate 40 '1') address

/-- Source `WalletCore.isSuspiciousAddress`: pattern match, otherwise a 5% random
flag (`Math.random() < 0.05`, the draw passed as `rand`). -/
def isSuspiciousAddress (address : List Char) (rand : ℚ) : Bool :=
  matchesSuspiciousPattern address || decide (rand < 5/100)

/-! ## WalletCore: security settings and risk assessment -/

/-- The fields of `SecuritySettings` consulted by `performSecurityChecks`:
the per-transaction withdrawal limit (wei), the whitelist (lower-case
addresses) and the phishing-protection toggle. -/
structure SecuritySettings where
  perTransactionLimitWei : Nat
  whitelistedAddresses : List (List Char)
  phishingProtection : Bool

/-- The security settings installed by the `WalletCore` constructor:
`perTransaction: ethers.parseEther('1')` = `10^18` wei, an empty
whitelist, and phishing protection on. -/
def defaultSecuritySettings : SecuritySettings :=
  { perTransactionLimitWei := 10 ^ 18
    whitelistedAddresses := []
    phishingProtection := true }

/-- Result record of `performTransactionRiskAssessment` (the
`RiskAssessment` of `types/wallet.ts`; the `aiRecommendation` text is a
pure function of the level and carries no algorithmic weight, so it is
omitted). -/
structure RiskAssessment where
  level : RiskLevel
  factors : List String
  confidence : ℚ
deriving DecidableEq

/-- The float test `parseFloat(ethers.formatEther(value)) > 1` of the
large-amount check, modelled exactly: the ether value of `value` wei
exceeds 1 iff `value > 10^18`.  (Float rounding can only shrink the
trigger set within `value > 10^18`, which no theorem below relies on.) -/
def ethValueGtOne (valueWei : Nat) : Bool :=
  decide (10 ^ 18 < valueWei)

/-- The float test `parseFloat(ethers.formatEther(value)) > 0.5` used by
`isUnusualTransaction`, modelled exactly as `value > 5 * 10^17`. -/
def ethValueGtHalf (valueWei : Nat) : Bool :=
  decide (5 * 10 ^ 17 < valueWei)

/-- Source `WalletCore.isUnusualTransaction`: large relative to the account
(`ethValue > 0.5`) while the stored behavior profile says
`transactionFrequency === 'low'`. -/
def isUnusualTransaction (valueWei : Nat) (frequency : TxFrequency) : Bool :=
  ethValueGtHalf valueWei && decide (frequency = TxFrequency.low)

/-- Source `WalletCore.performTransactionRiskAssessment`, lines 416-456.
`suspicious` is the (possibly random) result of `isSuspiciousAddress`;
`hasContext` models `this.aiContext` being non-null.  The three checks
run in order and mutate `riskLevel`:
suspicious → `high`; large amount → `high` becomes `run_away`, otherwise
`medium`; unusual pattern → `medium` (an unconditional assignment in the
source, even after `run_away`). -/
def performTransactionRiskAssessment (suspicious : Bool) (valueWei : Nat)
    (hasContext : Bool) (frequency : TxFrequency) : RiskAssessment :=
  let level0 : RiskLevel := RiskLevel.low
  let factors0 : List String := []
  let level1 := if suspicious then RiskLevel.high else level0
  let factors1 := if suspicious then factors0 ++ ["Suspicious recipient address"] else factors0
  let level2 :=
    if ethValueGtOne valueWei then
      (if level1 = RiskLevel.high then RiskLevel.runAway else RiskLevel.medium)
    else level1
  let factors2 := if ethValueGtOne valueWei then factors1 ++ ["Large transaction amount"] else factors1
  let unusual := hasContext && isUnusualTransaction valueWei frequency
  let level3 := if unusual then RiskLevel.medium else level2
  let factors3 := if unusual then factors2 ++ ["Unusual transaction pattern"] else factors2
  { level := level3, factors := factors3, confidence := 8/10 }

/-! ## WalletCore: gas-price multipliers and optimization -/

/-- Source `WalletCore.calculateNetworkMultiplier`:
`low: 0.8, medium: 1.0, high: 1.2, apocalyptic: 2.0`. -/
def calculateNetworkMultiplier : WCCongestion → ℚ
| .low => 8/10
| .medium => 1
| .high => 12/10
| .apocalyptic => 2

/-- Source `WalletCore.calculateTimeMultiplier` as a function of the local hour
and day: hour in `[2,6]` → `0.9`; hour in `[9,17]` → `1.1`; weekend
(day 0 or 6) → `0.95`; otherwise `1.0` (earlier rules win). -/
def calculateTimeMultiplier (hour day : Nat) : ℚ :=
  if 2 ≤ hour ∧ hour ≤ 6 then 9/10
  else if 9 ≤ hour ∧ hour ≤ 17 then 11/10
  else if day = 0 ∨ day = 6 then 95/100
  else 1

/-- Source `WalletCore.calculatePersonalityMultiplier`:
`conservative: 1.2, moderate: 1.0, aggressive: 0.8, degenerate: 0.6,
ai_decides: Math.random() * 0.4 + 0.8` (the draw passed as `rand`). -/
def calculatePersonalityMultiplier (personality : RiskTolerance) (rand : ℚ) : ℚ :=
  match personality with
  | .conservative => 12/10
  | .moderate => 1
  | .aggressive => 8/10
  | .degenerate => 6/10
  | .aiDecides => rand * 4/10 + 8/10

/-- Environment of a `sendTransaction` call: the pieces of wallet state,
stored profile and random draws the pipeline reads. -/
structure WalletEnv where
  isLocked : Bool
  settings : SecuritySettings
  /-- `Math.random()` draw inside `isSuspiciousAddress`. -/
  suspiciousRand : ℚ
  /-- `Math.random()` draw inside `detectPhishing`. -/
  phishingRand : ℚ
  /-- whether `this.aiContext` is non-null. -/
  hasContext : Bool
  frequency : TxFrequency
  /-- whether `aiCapabilities.gasOptimization` is enabled (default true). -/
  gasOptEnabled : Bool
  congestion : WCCongestion
  hour : Nat
  day : Nat
  personality : RiskTolerance
  /-- `Math.random()` draw inside `calculatePersonalityMultiplier`. -/
  personalityRand : ℚ
  /-- `feeData.gasPrice` from the provider, in wei. -/
  baseGasPriceWei : Nat

/-- Source `WalletCore.aiOptimizeGasPrice`, lines 333-361: when gas optimization
is enabled and an AI context exists, the base price is multiplied by
`BigInt(Math.floor(totalMultiplier * 100))` and integer-divided by `100`;
otherwise the provider price is used unchanged. -/
def aiOptimizeGasPrice (env : WalletEnv) : Nat :=
  if env.gasOptEnabled ∧ env.hasContext then
    let totalMultiplier :=
      calculateNetworkMultiplier env.congestion *
      calculateTimeMultiplier env.hour env.day *
      calculatePersonalityMultiplier env.personality env.personalityRand
    env.baseGasPriceWei * (Int.floor (totalMultiplier * 100)).toNat / 100
  else env.baseGasPriceWei

/-- Source `WalletCore.detectPhishing`: `Math.random() < 0.02`, ignoring the
address (the draw passed as `rand`). -/
def detectPhishing (rand : ℚ) : Bool :=
  decide (rand < 2/100)

/-- The distinct errors thrown by the send-transaction pipeline. -/
inductive SendError
| walletLocked
| hardLimitExceeded
| notWhitelisted
| phishingDetected
| runAway
deriving DecidableEq

/-- Source `WalletCore.performSecurityChecks`, lines 623-643, in source order:
per-transaction limit, whitelist (when non-empty), phishing detection
(when enabled). -/
def performSecurityChecks (settings : SecuritySettings) (toAddr : List Char)
    (valueWei : Nat) (phishingRand : ℚ) : Except SendError Unit :=
  if settings.perTransactionLimitWei < valueWei then
    Except.error SendError.hardLimitExceeded
  else if settings.whitelistedAddresses ≠ [] ∧
      (toAddr.map Char.toLower) ∉ settings.whitelistedAddresses then
    Except.error SendError.notWhitelisted
  else if settings.phishingProtection ∧ detectPhishing phishingRand then
    Except.error SendError.phishingDetected
  else Except.ok ()

/-- The steps of the `sendTransaction` pipeline, recorded in execution
order to reason about what ran before an error was thrown. -/
inductive SendStep
| riskScoring
| gasOptimization
| securityChecks
deriving DecidableEq

/-- Successful result of `sendTransaction` (the fields of the returned
`Transaction` record that the pipeline computes). -/
structure TransactionRec where
  toAddr : List Char
  valueWei : Nat
  gasPriceWei : Nat
  confidence : ℚ
deriving DecidableEq

/-- Source `WalletCore.sendTransaction`, lines 277-330, as a function of the
wallet environment, recipient and amount.  Returns the outcome together
with the list of pipeline steps that ran before the call returned or
threw.  Source order: locked check, `performTransactionRiskAssessment`,
`aiOptimizeGasPrice`, `performSecurityChecks`, then the `run_away`
rejection, then submission. -/
def sendTransaction (env : WalletEnv) (toAddr : List Char) (valueWei : Nat) :
    Except SendError TransactionRec × List SendStep :=
  if env.isLocked then (Except.error SendError.walletLocked, [])
  else
    let risk := performTransactionRiskAssessment
      (isSuspiciousAddress toAddr env.suspiciousRand) valueWei env.hasContext env.frequency
    let gasPrice := aiOptimizeGasPrice env
    match performSecurityChecks env.settings toAddr valueWei env.phishingRand with
    | Except.error e =>
        (Except.error e, [SendStep.riskScoring, SendStep.gasOptimization])
    | Except.ok _ =>
        if risk.level = RiskLevel.runAway then
          (Except.error SendError.runAway,
           [SendStep.riskScoring, SendStep.gasOptimization, SendStep.securityChecks])
        else
          (Except.ok { toAddr := toAddr, valueWei := valueWei, gasPriceWei := gasPrice,
                       confidence := risk.confidence },
           [SendStep.riskScoring, SendStep.gasOptimization, SendStep.securityChecks])

/-! ## WalletCore: AI learning state -/

/-- The `aiState` record of the wallet state. -/
structure AIState where
  learningMode : Bool
  confidenceScore : ℚ
  totalTransactions : Nat
  successRate : ℚ
deriving DecidableEq

/-- The initial `aiState` set by the `WalletCore` constructor. -/
def initialAIState : AIState :=
  { learningMode := true, confidenceScore := 1/2,
    totalTransactions := 0, successRate := 0 }

/-- Source `WalletCore.updateAILearning`, lines 658-688: increments
`totalTransactions` by one; the rest of the body persists learning data
to storage and does not touch `confidenceScore` or `successRate`. -/
def updateAILearning (s : AIState) : AIState :=
  { s with totalTransactions := s.totalTransactions + 1 }

/-- Source `WalletCore.updateGasOptimizationConfidence`, lines 409-413: despite
its name, it only increments `totalTransactions` ("For now, just
increment the counter"). -/
def updateGasOptimizationConfidence (s : AIState) : AIState :=
  { s with totalTransactions := s.totalTransactions + 1 }

/-! ## Tempest API client: network-condition classification

`TempestAPI.getNetworkConditions` converts the standard gas quote to Gwei
(`parseFloat(gasData.standard) / 1e9`), classifies congestion from the
gas price and the mempool pending count (first matching rule wins), and
estimates the wait time. -/

/-- The congestion classification of `getNetworkConditions`:
`gas < 20 && pending < 50000` → low; `gas < 50 && pending < 100000` →
medium; `gas < 100 && pending < 200000` → high; otherwise critical. -/
def classifyCongestion (standardGasGwei : ℚ) (pendingCount : Nat) : CongestionLevel :=
  if standardGasGwei < 20 ∧ pendingCount < 50000 then CongestionLevel.low
  else if standardGasGwei < 50 ∧ pendingCount < 100000 then CongestionLevel.medium
  else if standardGasGwei < 100 ∧ pendingCount < 200000 then CongestionLevel.high
  else CongestionLevel.critical

/-- Source `TempestAPI.estimateWaitTime`: `baseTime = 12`; `gas > 50` → 12;
`gas > 30` → 24; `gas > 20` → 36; otherwise
`12 * (3 + min(mempoolSize / 50000, 10))`. -/
def estimateWaitTime (gasPriceGwei : ℚ) (mempoolSize : Nat) : ℚ :=
  if gasPriceGwei > 50 then 12 * 1
  else if gasPriceGwei > 30 then 12 * 2
  else if gasPriceGwei > 20 then 12 * 3
  else 12 * (3 + min ((mempoolSize : ℚ) / 50000) 10)

/-- The record returned by `TempestAPI.getNetworkConditions`. -/
structure NetworkConditions where
  gasPriceGwei : ℚ
  congestion : CongestionLevel
  mempoolSize : Nat
  avgWaitTime : ℚ
  confidence : ℚ
deriving DecidableEq

/-- Source `TempestAPI.getNetworkConditions` on already-fetched gas and mempool
snapshots: `standardWei` is the parsed `gasData.standard`, `pendingCount`
is `mempoolData.pendingCount`, `gasConfidence` is `gasData.confidence`. -/
def getNetworkConditions (standardWei : ℚ) (pendingCount : Nat)
    (gasConfidence : ℚ) : NetworkConditions :=
  let standardGas := standardWei / 1000000000
  { gasPriceGwei := standardGas
    congestion := classifyCongestion standardGas pendingCount
    mempoolSize := pendingCount
    avgWaitTime := estimateWaitTime standardGas pendingCount
    confidence := gasConfidence }

/-! ## TradingEngine: technical indicators

Pure functions over an ordered price series (oldest first), from the
trading engine in `TradingEngine.ts`.  Prices are rationals; the input of
`calculateTechnicalIndicators` is the list of prices of a historical
series. -/

/-- Source `TradingEngine.calculateSMA`: mean of the last `period` prices
(`prices.slice(-period)`), `0` when fewer than `period` points exist. -/
def calculateSMA (prices : List ℚ) (period : Nat) : ℚ :=
  if prices.length < period then 0
  else (prices.drop (prices.length - period)).sum / period

/-- Source `TradingEngine.calculateEMA`: seed with the first price, then apply
`ema = price * k + ema * (1 - k)` with `k = 2 / (period + 1)` across the
whole series; `0` when fewer than `period` points exist. -/
def calculateEMA (prices : List ℚ) (period : Nat) : ℚ :=
  if prices.length < period then 0
  else
    match prices with
    | [] => 0
    | p :: rest =>
        rest.foldl
          (fun ema price =>
            price * (2 / (period + 1)) + ema * (1 - 2 / (period + 1)))
          p

/-- Source `TradingEngine.calculateRSI`, lines 884-906: neutral `50` when fewer
than `period + 1` points exist; otherwise gains and losses are summed
over the FIRST `period` deltas (`for i = 1; i < period + 1`), `100` when
the average loss is zero, else `100 - 100 / (1 + rs)` with
`rs = avgGain / avgLoss`. -/
def calculateRSI (prices : List ℚ) (period : Nat) : ℚ :=
  if prices.length < period + 1 then 50
  else
    let deltas := (List.zipWith (fun a b => b - a) prices prices.tail).take period
    let gains := (deltas.map (fun c => if 0 < c then c else 0)).sum
    let losses := (deltas.map (fun c => if 0 < c then 0 else -c)).sum
    let avgGain := gains / period
    let avgLoss := losses / period
    if avgLoss = 0 then 100
    else 100 - 100 / (1 + avgGain / avgLoss)

/-- The population variance of period-over-period returns computed by
`TradingEngine.calculateVolatility` before its final `Math.sqrt`
(`0` when fewer than 2 points exist, matching the early return). -/
def returnsVariance (prices : List ℚ) : ℚ :=
  if prices.length < 2 then 0
  else
    let returns := List.zipWith (fun a b => (b - a) / a) prices prices.tail
    let avgReturn := returns.sum / returns.length
    (returns.map (fun r => (r - avgReturn) ^ 2)).sum / returns.length

/-- The indicator fields computed by `calculateTechnicalIndicators` that
the decision engine reads.  The `bollingerUpper`, `bollingerLower` and
`volatility` entries of the source record involve `Math.sqrt`, which has
no exact rational value; no claim reads them, so they are omitted (the
square root that feeds risk scoring is kept as an explicit `volatility`
argument of `calculateRiskScore` below). -/
structure TechnicalIndicators where
  sma7 : ℚ
  sma14 : ℚ
  sma30 : ℚ
  rsi : ℚ
  macd : ℚ
  currentPrice : ℚ
deriving DecidableEq

/-- Source `TradingEngine.calculateTechnicalIndicators`, lines 829-863: returns
the empty record `{}` (modelled as `none`) when fewer than 14 points
exist, otherwise the populated indicator map. -/
def calculateTechnicalIndicators (prices : List ℚ) : Option TechnicalIndicators :=
  if prices.length < 14 then none
  else some
    { sma7 := calculateSMA prices 7
      sma14 := calculateSMA prices 14
      sma30 := calculateSMA prices 30
      rsi := calculateRSI prices 14
      macd := calculateEMA prices 12 - calculateEMA prices 26
      currentPrice := prices.getLastD 0 }

/-! ## TradingEngine: sentiment, risk score and trading decision -/

/-- Source `PriceData` as consumed by the decision path: only `symbol`,
`changePercent24h`, `volume24h` and `marketCap` are read. -/
structure PriceDataCore where
  symbol : String
  price : ℚ
  change24h : ℚ
  changePercent24h : ℚ
  marketCap : ℚ
  volume24h : ℚ
deriving DecidableEq

/-- Source `TradingEngine.analyzeMarketSentiment` (the fields the decision path
reads): `price_momentum` is positive iff `changePercent24h > 0`;
`volume_trend` is high iff `volume24h > 1e9`; `volatility` is high iff
`|changePercent24h| > 5`. -/
structure MarketSentiment where
  priceMomentumPositive : Bool
  volumeTrendHigh : Bool
  volatilityHigh : Bool
deriving DecidableEq

/-- Source `TradingEngine.analyzeMarketSentiment` on a price snapshot. -/
def analyzeMarketSentiment (pd : PriceDataCore) : MarketSentiment :=
  { priceMomentumPositive := decide (0 < pd.changePercent24h)
    volumeTrendHigh := decide (1000000000 < pd.volume24h)
    volatilityHigh := decide (5 < |pd.changePercent24h|) }

/-- Source `TradingEngine.calculateRiskScore`, lines 947-966.  The source
computes `volatility = Math.sqrt(returnsVariance)` via
`calculateVolatility`; since exact square roots are irrational, the
(nonnegative) square root is passed as the explicit argument
`volatility`.  Base `0.5`, plus `min(volatility * 10, 0.3)`, plus `0.2`
for high sentiment volatility, plus `0.1` for high volume, plus `0.2`
when `|changePercent24h| > 10`, capped at `1`. -/
def calculateRiskScore (pd : PriceDataCore) (volatility : ℚ)
    (sentiment : MarketSentiment) : ℚ :=
  let r0 : ℚ := 1/2
  let r1 := r0 + min (volatility * 10) (3/10)
  let r2 := if sentiment.volatilityHigh then r1 + 2/10 else r1
  let r3 := if sentiment.volumeTrendHigh then r2 + 1/10 else r2
  let r4 := if 10 < |pd.changePercent24h| then r3 + 2/10 else r3
  min r4 1

/-- JavaScript `a < b` where either side may be `undefined` (a missing
record entry): any comparison with `undefined` is false. -/
def jsLt (a b : Option ℚ) : Bool :=
  match a, b with
  | some x, some y => decide (x < y)
  | _, _ => false

/-- JavaScript `a > b` with possibly-`undefined` sides. -/
def jsGt (a b : Option ℚ) : Bool :=
  match a, b with
  | some x, some y => decide (y < x)
  | _, _ => false

/-- Lookup of an entry of the indicator record (`undefined` when the
record is empty). -/
def tiField (ti : Option TechnicalIndicators) (f : TechnicalIndicators → ℚ) : Option ℚ :=
  ti.map f

/-- The additive score of `generateTradingDecision` before risk
dampening: RSI branches (`rsi < 30` → `+0.3`, `rsi > 70` → `-0.3`),
moving-average crossover (`sma7 > sma14` → `+0.2` else `-0.2`), MACD
(`macd > 0` → `+0.15` else `-0.15`), sentiment (`positive` → `+0.2` else
`-0.2`).  Missing indicator entries make every comparison false. -/
def rawScore (ti : Option TechnicalIndicators) (sentiment : MarketSentiment) : ℚ :=
  (if jsLt (tiField ti TechnicalIndicators.rsi) (some 30) then 3/10
   else if jsGt (tiField ti TechnicalIndicators.rsi) (some 70) then -(3/10)
   else 0) +
  (if jsGt (tiField ti TechnicalIndicators.sma7) (tiField ti TechnicalIndicators.sma14)
   then 2/10 else -(2/10)) +
  (if jsGt (tiField ti TechnicalIndicators.macd) (some 0) then 15/100 else -(15/100)) +
  (if sentiment.priceMomentumPositive then 2/10 else -(2/10))

/-- The result record of `generateTradingDecision` (the reasoning text is
generated by `generateReasoningText` from the numeric results and factor
list and carries no decision weight, so it is omitted). -/
structure AITradingDecision where
  action : TradeAction
  asset : String
  amount : ℚ
  confidence : ℚ
  riskScore : ℚ
deriving DecidableEq

/-- Source `TradingEngine.generateTradingDecision`, lines 968-1045: accumulate
the additive score, dampen it by `1 - riskScore * 0.5`, take
`confidence = |score|`, choose the action
(`score > 0.3 && riskScore < 0.7` → buy; `score < -0.3` → sell;
otherwise hold), and size the position as
`max(0.01, min(0.05, 0.02 * (1 - riskScore) * confidence))`. -/
def generateTradingDecision (pd : PriceDataCore)
    (ti : Option TechnicalIndicators) (sentiment : MarketSentiment)
    (riskScore : ℚ) : AITradingDecision :=
  let score := rawScore ti sentiment * (1 - riskScore * (1/2))
  let confidence := |score|
  let action :=
    if 3/10 < score ∧ riskScore < 7/10 then TradeAction.buy
    else if score < -(3/10) then TradeAction.sell
    else TradeAction.hold
  let riskAdjustedAmount := 2/100 * (1 - riskScore) * confidence
  let amount := max (1/100) (min (5/100) riskAdjustedAmount)
  { action := action, asset := pd.symbol, amount := amount,
    confidence := confidence, riskScore := riskScore }

/-- The successful path of `TradingEngine.makeAITradingDecision`: derive
sentiment from the price snapshot, risk from the historical series (with
the square root of the return variance passed as `volatility`), the
indicator map from the prices, and feed them to
`generateTradingDecision`.  The catch-branch of the source returns a
fixed hold decision and is modelled in `makeAITradingDecision`. -/
def aiTradingDecisionOk (pd : PriceDataCore) (histPrices : List ℚ)
    (volatility : ℚ) : AITradingDecision :=
  let sentiment := analyzeMarketSentiment pd
  let riskScore := calculateRiskScore pd volatility sentiment
  generateTradingDecision pd (calculateTechnicalIndicators histPrices) sentiment riskScore

/-- Source `TradingEngine.makeAITradingDecision`: when fetching the price or the
historical series fails, the catch-branch returns the conservative
`hold` fallback (`amount 0`, `confidence 0.1`, `riskScore 1`); otherwise
the computed decision. -/
def makeAITradingDecision (asset : String)
    (priceRes : Except Unit PriceDataCore)
    (histRes : Except Unit (List ℚ)) (volatility : ℚ) : AITradingDecision :=
  match priceRes, histRes with
  | Except.ok pd, Except.ok histPrices => aiTradingDecisionOk pd histPrices volatility
  | _, _ =>
      { action := TradeAction.hold, asset := asset, amount := 0,
        confidence := 1/10, riskScore := 1 }

/-! ## TradingEngine: gas-optimization decision (first engine version)

`makeGasOptimizationDecision` fetches network conditions and the gas
quote from the Tempest API and computes a decision; when either fetch
fails it rethrows (`Cannot optimize gas - Tempest API unavailable`). -/

/-- The gas tier quote (`TempestGasData`), parsed to integer wei. -/
structure GasTier where
  slow : Nat
  standard : Nat
  fast : Nat
deriving DecidableEq

/-- Actions of the gas-optimization decision. -/
inductive GasOptAction
| optimizeGas
| delayTransaction
| executeNow
| wait
deriving DecidableEq

/-- Result record of `generateGasOptimizationDecision` (the reasoning
string and display-only network factors are omitted). -/
structure GasDecision where
  action : GasOptAction
  recommendedGasPriceWei : Nat
  estimatedWaitTime : ℚ
  confidence : ℚ
  riskScore : ℚ
  gasSavingsWei : Nat
deriving DecidableEq

/-- Source `TradingEngine.calculateNetworkRiskScore`: base `0.1`, congestion
term (`low +0.1, medium +0.3, high +0.6, critical +0.9`), gas-price term
(`> 100` Gwei `+0.3`, else `> 50` `+0.2`), wait-time term (`> 300` s
`+0.2`), capped at `1`. -/
def calculateNetworkRiskScore (net : NetworkConditions) : ℚ :=
  let r0 : ℚ := 1/10
  let r1 := r0 +
    (match net.congestion with
     | CongestionLevel.low => 1/10
     | CongestionLevel.medium => 3/10
     | CongestionLevel.high => 6/10
     | CongestionLevel.critical => 9/10)
  let r2 := if 100 < net.gasPriceGwei then r1 + 3/10
            else if 50 < net.gasPriceGwei then r1 + 2/10 else r1
  let r3 := if 300 < net.avgWaitTime then r2 + 2/10 else r2
  min r3 1

/-- Source `TradingEngine.generateGasOptimizationDecision`, lines 133-196:
target at or below the slow tier uses the slow price (delaying, with
confidence scaled by `0.8`, when congestion is high and urgency low);
target at or above the fast tier, or high urgency, executes now at the
fast price; otherwise the standard price is used. -/
def generateGasOptimizationDecision (targetGasPriceWei : Nat)
    (net : NetworkConditions) (gas : GasTier) (urgency : Urgency) : GasDecision :=
  let base :=
    if targetGasPriceWei ≤ gas.slow then
      if net.congestion = CongestionLevel.high ∧ urgency = Urgency.low then
        (GasOptAction.delayTransaction, gas.slow, net.confidence * (8/10))
      else
        (GasOptAction.optimizeGas, gas.slow, net.confidence)
    else if gas.fast ≤ targetGasPriceWei ∨ urgency = Urgency.high then
      (GasOptAction.executeNow, gas.fast, net.confidence)
    else
      (GasOptAction.optimizeGas, gas.standard, net.confidence)
  let recommended := base.2.1
  { action := base.1
    recommendedGasPriceWei := recommended
    estimatedWaitTime := net.avgWaitTime
    confidence := base.2.2
    riskScore := calculateNetworkRiskScore net
    gasSavingsWei :=
      if recommended < targetGasPriceWei then targetGasPriceWei - recommended else 0 }

/-- Source `TradingEngine.makeGasOptimizationDecision`, lines 109-131: a failed
fetch of either collaborator snapshot is rethrown to the caller as an
explicit error; no fallback data is fabricated. -/
def makeGasOptimizationDecision (netRes : Except Unit NetworkConditions)
    (gasRes : Except Unit GasTier) (targetGasPriceWei : Nat)
    (urgency : Urgency) : Except Unit GasDecision :=
  match netRes, gasRes with
  | Except.ok net, Except.ok gas =>
      Except.ok (generateGasOptimizationDecision targetGasPriceWei net gas urgency)
  | Except.error e, _ => Except.error e
  | _, Except.error e => Except.error e

/-! ## PriceService

`getPrice` and `getHistoricalPrices` catch any collaborator failure and
return randomly generated mock data ("Return mock data for
development").  The `Math.random()` draws are modelled as an explicit
stream `rand : Nat → ℚ`, read in source order. -/

/-- The CoinGecko per-coin record consumed by `getPrice`; each field may
be absent (`|| 0` defaults in the source). -/
structure CoinGeckoCoin where
  usd : Option ℚ
  usd24hChange : Option ℚ
  usdMarketCap : Option ℚ
  usd24hVol : Option ℚ

/-- Source `PriceService.getPrice`, lines 114-152.  `apiRes` is the outcome of
`fetchWithCache` together with the per-coin lookup (`.ok none` models a
response without data for the symbol, which throws inside the `try` and
is caught like a fetch failure).  On any failure the catch-branch
fabricates: `price = rand0 * 3000 + 1000`,
`change24h = (rand1 - 0.5) * 200`, `changePercent24h = (rand2 - 0.5) * 10`,
`marketCap = rand3 * 1e12`, `volume24h = rand4 * 1e10`. -/
def getPrice (symbol : String) (apiRes : Except Unit (Option CoinGeckoCoin))
    (rand : Nat → ℚ) : PriceDataCore :=
  match apiRes with
  | Except.ok (some cd) =>
      { symbol := symbol.toUpper
        price := cd.usd.getD 0
        change24h := cd.usd24hChange.getD 0
        changePercent24h := cd.usd24hChange.getD 0
        marketCap := cd.usdMarketCap.getD 0
        volume24h := cd.usd24hVol.getD 0 }
  | _ =>
      { symbol := symbol.toUpper
        price := rand 0 * 3000 + 1000
        change24h := (rand 1 - 1/2) * 200
        changePercent24h := (rand 2 - 1/2) * 10
        marketCap := rand 3 * 1000000000000
        volume24h := rand 4 * 10000000000 }

/-- One point of a historical price series. -/
structure HistoricalPrice where
  timestamp : ℤ
  price : ℚ
  volume : ℚ
deriving DecidableEq

/-- Source `PriceService.getHistoricalPrices`, lines 193-234.  `apiRes` carries
the fetched chart (`.ok none` models a response without a `prices`
field, which throws inside the `try`).  On any failure the catch-branch
fabricates `days + 1` points around base price 2000: for
`i = days` down to `0`, `price = 2000 + (rand - 0.5) * 500` and
`volume = rand * 1e9`, two fresh draws per point. -/
def getHistoricalPrices (apiRes : Except Unit (Option (List (ℤ × ℚ))))
    (days : Nat) (now : ℤ) (rand : Nat → ℚ) : List HistoricalPrice :=
  match apiRes with
  | Except.ok (some pairs) =>
      pairs.map (fun p => { timestamp := p.1, price := p.2, volume := 0 })
  | _ =>
      (List.range (days + 1)).map (fun (j : ℕ) =>
        { timestamp := now - (Int.ofNat days - Int.ofNat j) * 86400000
          price := 2000 + (rand (2 * j) - 1/2) * 500
          volume := rand (2 * j + 1) * 1000000000 })

/-! ## Spec-side definitions

Definitions written from the specification's words (not from the source),
used to compare the implementation against the spec's formulas. -/

/-- Modelled from the spec: scaled integer application of the total gas
multiplier, "multiply by `round(totalMultiplier * 100)` then
integer-divide by `100`". -/
def specScaledGasPriceRound (baseWei : Nat) (totalMultiplier : ℚ) : Nat :=
  baseWei * (round (totalMultiplier * 100)).toNat / 100

/-- Modelled from the source (`aiOptimizeGasPrice` applies
`Math.floor`, not `round`): multiply by `floor(totalMultiplier * 100)`
then integer-divide by `100`. -/
def scaledGasPriceFloor (baseWei : Nat) (totalMultiplier : ℚ) : Nat :=
  baseWei * (Int.floor (totalMultiplier * 100)).toNat / 100

/-- Modelled from the spec: RSI computed over the MOST RECENT `period`
deltas, `RSI = 100 - 100 / (1 + RS)` with
`RS = avgGain / avgLoss`; `100` when the average loss is `0`; neutral
`50` when fewer than `period + 1` points exist. -/
def rsiSpecRecent (prices : List ℚ) (period : Nat) : ℚ :=
  if prices.length < period + 1 then 50
  else
    let allDeltas := List.zipWith (fun a b => b - a) prices prices.tail
    let deltas := allDeltas.drop (allDeltas.length - period)
    let gains := (deltas.map (fun c => if 0 < c then c else 0)).sum
    let losses := (deltas.map (fun c => if 0 < c then 0 else -c)).sum
    let avgGain := gains / period
    let avgLoss := losses / period
    if avgLoss = 0 then 100
    else 100 - 100 / (1 + avgGain / avgLoss)

/-- Modelled from the spec, amended: the spec's "most recent `period`
deltas" replaced by the FIRST (oldest) `period` deltas, written with
indexed sums so it can be compared against the source translation
`calculateRSI`. -/
def rsiSpecOldest (prices : List ℚ) (period : Nat) : ℚ :=
  if prices.length < period + 1 then 50
  else
    let gain := ∑ i in Finset.range period, max (prices.getD (i + 1) 0 - prices.getD i 0) 0
    let loss := ∑ i in Finset.range period, max (prices.getD i 0 - prices.getD (i + 1) 0) 0
    if loss / period = 0 then 100
    else 100 - 100 / (1 + (gain / period) / (loss / period))

/-- Gas-price band of the congestion classification (thresholds 20, 50,
100 Gwei), used to state monotonicity. -/
def gasBand (g : ℚ) : Nat :=
  if g < 20 then 0 else if g < 50 then 1 else if g < 100 then 2 else 3

/-- Pending-count band of the congestion classification (thresholds
50000, 100000, 200000), used to state monotonicity. -/
def pendingBand (p : Nat) : Nat :=
  if p < 50000 then 0 else if p < 100000 then 1 else if p < 200000 then 2 else 3

/-! ## Helper lemmas -/

theorem gasBand_mono {g g' : ℚ} (h : g ≤ g') : gasBand g ≤ gasBand g' := by
  unfold gasBand
  split_ifs <;> first | omega | linarith

theorem pendingBand_mono {p p' : Nat} (h : p ≤ p') : pendingBand p ≤ pendingBand p' := by
  unfold pendingBand
  split_ifs <;> omega

theorem classifyCongestion_rank_eq (g : ℚ) (p : Nat) :
    (classifyCongestion g p).rank = max (gasBand g) (pendingBand p) := by
  unfold classifyCongestion gasBand pendingBand
  by_cases hg1 : g < 20 <;> by_cases hg2 : g < 50 <;> by_cases hg3 : g < 100 <;>
    by_cases hp1 : p < 50000 <;> by_cases hp2 : p < 100000 <;> by_cases hp3 : p < 200000 <;>
    simp only [hg1, hg2, hg3, hp1, hp2, hp3, true_and, false_and, and_true, and_false,
      if_true, if_false, CongestionLevel.rank] <;>
    first
    | decide
    | (exfalso; linarith)

theorem rawScore_abs_le (ti : Option TechnicalIndicators) (s : MarketSentiment) :
    |rawScore ti s| ≤ 85/100 := by
  unfold rawScore
  split_ifs <;> rw [abs_le] <;> constructor <;> norm_num

theorem calculateRiskScore_le_one (pd : PriceDataCore) (vol : ℚ)
    (s : MarketSentiment) : calculateRiskScore pd vol s ≤ 1 := by
  unfold calculateRiskScore
  exact min_le_right _ _

theorem calculateRiskScore_ge_half (pd : PriceDataCore) (vol : ℚ)
    (s : MarketSentiment) (h : 0 ≤ vol) : 1/2 ≤ calculateRiskScore pd vol s := by
  unfold calculateRiskScore
  have hmin : (0 : ℚ) ≤ min (vol * 10) (3/10) := le_min (by positivity) (by norm_num)
  refine le_min ?_ (by norm_num)
  split_ifs <;> linarith

theorem sum_take_zipWith_deltas (f : ℚ → ℚ) :
    ∀ (n : ℕ) (l : List ℚ), n + 1 ≤ l.length →
      (((List.zipWith (fun a b => b - a) l l.tail).take n).map f).sum =
        ∑ i in Finset.range n, f (l.getD (i + 1) 0 - l.getD i 0) := by
  intro n
  induction n with
  | zero =>
    intro l h
    simp
  | succ k ih =>
    intro l h
    rcases l with _ | ⟨a, l'⟩
    · simp at h
    rcases l' with _ | ⟨b, rest⟩
    · simp at h
    have h' : k + 1 ≤ (b :: rest).length := by
      simpa using Nat.le_of_succ_le_succ h
    have ihl := ih (b :: rest) h'
    simp only [List.tail_cons, List.zipWith_cons_cons, List.take_succ_cons,
      List.map_cons, List.sum_cons, List.getD_cons_succ, List.getD_cons_zero] at ihl ⊢
    rw [Finset.sum_range_succ']
    simp only [List.getD_cons_succ, List.getD_cons_zero]
    rw [← ihl]
    ring

theorem posPartEq (c : ℚ) : (if 0 < c then c else 0) = max c 0 := by
  split_ifs with h
  · exact (max_eq_left h.le).symm
  · exact (max_eq_right (not_lt.mp h)).symm

theorem negPartEq (c : ℚ) : (if 0 < c then 0 else -c) = max (-c) 0 := by
  split_ifs with h
  · exact (max_eq_right (by linarith)).symm
  · exact (max_eq_left (by linarith [not_lt.mp h])).symm

/-! ## Claim theorems -/

/-- C2: a produced `RiskAssessment` has level `run_away` only when the
per-transaction limit of the default security settings (1 ETH) is
exceeded: the heuristic path that reaches `run_away` (suspicious
recipient together with the large-amount check) requires
`amountWei > 10^18`, which is exactly the hard limit, so no combination
of heuristic checks can produce `run_away` for an amount within the
limit. -/
theorem C2_run_away_only_over_limit (suspicious : Bool) (valueWei : Nat)
    (hasContext : Bool) (frequency : TxFrequency)
    (h : (performTransactionRiskAssessment suspicious valueWei hasContext frequency).level =
      RiskLevel.runAway) :
    defaultSecuritySettings.perTransactionLimitWei < valueWei ∧ suspicious = true := by
  have hfin : ∀ b1 b2 b3 : Bool,
      (let level1 := if b1 then RiskLevel.high else RiskLevel.low
       let level2 :=
         if b2 then (if level1 = RiskLevel.high then RiskLevel.runAway else RiskLevel.medium)
         else level1
       if b3 then RiskLevel.medium else level2) = RiskLevel.runAway →
        b1 = true ∧ b2 = true := by decide
  obtain ⟨h1, h2⟩ := hfin suspicious (ethValueGtOne valueWei)
    (hasContext && isUnusualTransaction valueWei frequency) h
  refine ⟨?_, h1⟩
  unfold ethValueGtOne at h2
  exact of_decide_eq_true h2

/-- C2 witness: a suspicious recipient with a 2 ETH amount yields
`run_away`, and 2 ETH indeed exceeds the default limit. -/
theorem C2_run_away_only_over_limit_witness :
    defaultSecuritySettings.perTransactionLimitWei < 2 * 10 ^ 18 ∧ true = true :=
  C2_run_away_only_over_limit true (2 * 10 ^ 18) false TxFrequency.medium (by decide)

/-- C4 counterexample: recording one success and then one failure
(N = 1, two feedback calls) from the fresh state leaves `successRate` at
`0`, not `0.5`; `confidenceScore` is also untouched. -/
theorem C4_cex :
    (updateAILearning (updateAILearning initialAIState)).successRate = 0 ∧
    ¬((0 : ℚ) = 1/2) ∧
    (updateAILearning (updateAILearning initialAIState)).confidenceScore = 1/2 := by
  refine ⟨rfl, by norm_num, rfl⟩

/-- C4 (amended): each feedback call increments `totalTransactions` by 1
and leaves `successRate` and `confidenceScore` unchanged — no cumulative
mean is recomputed and no confidence nudge occurs, so after any number
of recorded outcomes from the fresh state `successRate` is still `0` and
`confidenceScore` still `0.5`.  `updateGasOptimizationConfidence`
likewise only increments the counter. -/
theorem C4_learning_counter_only (n : Nat) :
    (Nat.iterate updateAILearning n initialAIState).successRate = 0 ∧
    (Nat.iterate updateAILearning n initialAIState).confidenceScore = 1/2 ∧
    (Nat.iterate updateAILearning n initialAIState).totalTransactions = n ∧
    (∀ s : AIState,
      (updateAILearning s).totalTransactions = s.totalTransactions + 1 ∧
      (updateAILearning s).successRate = s.successRate ∧
      (updateAILearning s).confidenceScore = s.confidenceScore ∧
      (updateGasOptimizationConfidence s).totalTransactions = s.totalTransactions + 1) := by
  have key : ∀ (m : Nat) (s : AIState),
      Nat.iterate updateAILearning m s =
        { s with totalTransactions := s.totalTransactions + m } := by
    intro m
    induction m with
    | zero => intro s; rfl
    | succ k ihm =>
      intro s
      rw [Function.iterate_succ_apply, ihm]
      simp [updateAILearning]
      omega
  refine ⟨?_, ?_, ?_, fun s => ⟨rfl, rfl, rfl, rfl⟩⟩ <;>
    rw [key n initialAIState] <;> simp [initialAIState]

/-- C6 counterexample: `isSuspiciousAddress` is not a deterministic
function of the address: for the pattern-free address `0xab`, a random
draw below `0.05` flags it while a draw above does not, so two
evaluations with the same address can disagree and the flag is not
equivalent to the pattern match. -/
theorem C6_cex :
    isSuspiciousAddress ['0', 'x', 'a', 'b'] (1/100) = true ∧
    isSuspiciousAddress ['0', 'x', 'a', 'b'] (1/2) = false ∧
    matchesSuspiciousPattern ['0', 'x', 'a', 'b'] = false := by
  have hm : matchesSuspiciousPattern ['0', 'x', 'a', 'b'] = false := by decide
  have hlt : (1 : ℚ)/100 < 5/100 := by norm_num
  have hge : ¬((1 : ℚ)/2 < 5/100) := by norm_num
  refine ⟨?_, ?_, hm⟩
  · simp only [isSuspiciousAddress, Bool.or_eq_true, decide_eq_true_eq]
    exact Or.inr hlt
  · simp only [isSuspiciousAddress, hm, Bool.false_or, decide_eq_false_iff_not]
    exact hge

/-- C6 (amended): the flag is true iff the address matches one of the
three fixed patterns or the `Math.random()` draw is below `0.05`; in
particular every address matching a fixed pattern is flagged for every
draw (the deterministic part), while pattern-free addresses are flagged
nondeterministically. -/
theorem C6_suspicious_characterization (address : List Char) (rand : ℚ) :
    (isSuspiciousAddress address rand = true ↔
      (matchesSuspiciousPattern address = true ∨ rand < 5/100)) ∧
    (∀ tail : List Char, ∀ r : ℚ,
      isSuspiciousAddress (['0', 'x', '0', '0', '0'] ++ tail) r = true) ∧
    (∀ tail : List Char, ∀ r : ℚ,
      isSuspiciousAddress (['0', 'x', 'd', 'e', 'a', 'd'] ++ tail) r = true) ∧
    (∀ tail : List Char, ∀ r : ℚ,
      isSuspiciousAddress (('0' :: 'x' :: List.replicate 40 '1') ++ tail) r = true) := by
  have hpre : ∀ (pat tail : List Char), listStartsWith pat (pat ++ tail) = true := by
    intro pat
    induction pat with
    | nil => intro tail; rfl
    | cons p ps ihp => intro tail; simp [listStartsWith, ihp]
  refine ⟨?_, ?_, ?_, ?_⟩
  · simp [isSuspiciousAddress]
  · intro tail r
    have hp1 := hpre ['0', 'x', '0', '0', '0'] tail
    simp only [isSuspiciousAddress, matchesSuspiciousPattern, hp1, Bool.true_or,
      Bool.or_true]
  · intro tail r
    have hmap : List.map Char.toLower ['0', 'x', 'd', 'e', 'a', 'd'] =
        ['0', 'x', 'd', 'e', 'a', 'd'] := by decide
    have hp2 := hpre ['0', 'x', 'd', 'e', 'a', 'd'] (tail.map Char.toLower)
    simp only [isSuspiciousAddress, matchesSuspiciousPattern, List.map_append, hmap,
      hp2, Bool.true_or, Bool.or_true]
  · intro tail r
    have hp3 := hpre ('0' :: 'x' :: List.replicate 40 '1') tail
    simp only [isSuspiciousAddress, matchesSuspiciousPattern, hp3, Bool.true_or,
      Bool.or_true]

/-- C9: the congestion classification of `getNetworkConditions` is
monotonically non-decreasing (in the order
`low < medium < high < critical`) when the standard gas quote or the
pending-transaction count increases. -/
theorem C9_congestion_monotone (standardWei standardWei' : ℚ)
    (pending pending' : Nat) (conf conf' : ℚ)
    (hg : standardWei ≤ standardWei') (hp : pending ≤ pending') :
    ((getNetworkConditions standardWei pending conf).congestion).rank ≤
      ((getNetworkConditions standardWei' pending' conf').congestion).rank := by
  have hgw : standardWei / 1000000000 ≤ standardWei' / 1000000000 := by
    exact (div_le_div_iff_of_pos_right (by norm_num)).mpr hg
  show (classifyCongestion (standardWei / 1000000000) pending).rank ≤
    (classifyCongestion (standardWei' / 1000000000) pending').rank
  rw [classifyCongestion_rank_eq, classifyCongestion_rank_eq]
  exact max_le_max (gasBand_mono hgw) (pendingBand_mono hp)

/-- C9 witness: a quiet network (0 wei, empty mempool) classifies no
higher than a loaded one (1000 Gwei standard quote, 300000 pending). -/
theorem C9_congestion_monotone_witness :
    ((getNetworkConditions 0 0 1).congestion).rank ≤
      ((getNetworkConditions (10 ^ 12) 300000 1).congestion).rank :=
  C9_congestion_monotone 0 (10 ^ 12) 0 300000 1 1 (by norm_num) (by norm_num)

/-- C5 counterexample: with low congestion (0.8), peak hour 9 (1.1) and
the degenerate personality (0.6) the total multiplier is 0.528; the
source floors `52.8` to `52` while the round formula of the claim would
give `53`, so on a base price of 100 wei the code yields 52 wei, not the
claimed 53. -/
theorem C5_cex :
    aiOptimizeGasPrice
      { isLocked := false, settings := defaultSecuritySettings, suspiciousRand := 1/2,
        phishingRand := 1/2, hasContext := true, frequency := TxFrequency.medium,
        gasOptEnabled := true, congestion := WCCongestion.low, hour := 9, day := 3,
        personality := RiskTolerance.degenerate, personalityRand := 0,
        baseGasPriceWei := 100 } = 52 ∧
    specScaledGasPriceRound 100
      (calculateNetworkMultiplier WCCongestion.low * calculateTimeMultiplier 9 3 *
        calculatePersonalityMultiplier RiskTolerance.degenerate 0) = 53 ∧
    (52 : Nat) ≠ 53 := by
  have ht : calculateTimeMultiplier 9 3 = 11/10 := by
    norm_num [calculateTimeMultiplier]
  have htm : calculateNetworkMultiplier WCCongestion.low * calculateTimeMultiplier 9 3 *
      calculatePersonalityMultiplier RiskTolerance.degenerate 0 = 66/125 := by
    rw [ht]
    norm_num [calculateNetworkMultiplier, calculatePersonalityMultiplier]
  have hfl : Int.floor ((66/125 : ℚ) * 100) = 52 := by
    rw [show ((66:ℚ)/125 * 100) = 264/5 by norm_num, Int.floor_eq_iff]
    constructor <;> norm_num
  have hrd : round ((66/125 : ℚ) * 100) = 53 := by
    rw [round_eq, show ((66:ℚ)/125 * 100 + 1/2) = 533/10 by norm_num, Int.floor_eq_iff]
    constructor <;> norm_num
  refine ⟨?_, ?_, by norm_num⟩
  · show (if (true : Bool) = true ∧ (true : Bool) = true then
        100 * (Int.floor ((calculateNetworkMultiplier WCCongestion.low *
          calculateTimeMultiplier 9 3 *
          calculatePersonalityMultiplier RiskTolerance.degenerate 0) * 100)).toNat / 100
      else 100) = 52
    rw [if_pos ⟨rfl, rfl⟩, htm, hfl]
    rfl
  · unfold specScaledGasPriceRound
    rw [htm, hrd]
    rfl

/-- C5 (amended): when gas optimization is enabled and an AI context
exists, the optimized price is the provider base price multiplied by
`floor(totalMultiplier * 100)` — floor, not the round of the claim — and
integer-divided by 100; the network multiplier table is low 0.8,
medium 1.0, high 1.2 and 2.0 for the top (apocalyptic, the spec's
critical) congestion level. -/
theorem C5_gas_scaled_floor (env : WalletEnv)
    (h : env.gasOptEnabled = true ∧ env.hasContext = true) :
    aiOptimizeGasPrice env =
      scaledGasPriceFloor env.baseGasPriceWei
        (calculateNetworkMultiplier env.congestion *
         calculateTimeMultiplier env.hour env.day *
         calculatePersonalityMultiplier env.personality env.personalityRand) ∧
    calculateNetworkMultiplier WCCongestion.apocalyptic = 2 ∧
    calculateNetworkMultiplier WCCongestion.low = 8/10 ∧
    calculateNetworkMultiplier WCCongestion.medium = 1 ∧
    calculateNetworkMultiplier WCCongestion.high = 12/10 := by
  refine ⟨?_, rfl, rfl, rfl, rfl⟩
  unfold aiOptimizeGasPrice scaledGasPriceFloor
  rw [if_pos ⟨h.1, h.2⟩]

/-- C5 witness: the floor formula at a concrete environment (top
congestion, moderate personality, base 100 wei). -/
theorem C5_gas_scaled_floor_witness :
    aiOptimizeGasPrice
      { isLocked := false, settings := defaultSecuritySettings, suspiciousRand := 1/2,
        phishingRand := 1/2, hasContext := true, frequency := TxFrequency.medium,
        gasOptEnabled := true, congestion := WCCongestion.apocalyptic, hour := 0, day := 1,
        personality := RiskTolerance.moderate, personalityRand := 0,
        baseGasPriceWei := 100 } =
      scaledGasPriceFloor 100
        (calculateNetworkMultiplier WCCongestion.apocalyptic *
         calculateTimeMultiplier 0 1 *
         calculatePersonalityMultiplier RiskTolerance.moderate 0) ∧
    calculateNetworkMultiplier WCCongestion.apocalyptic = 2 ∧
    calculateNetworkMultiplier WCCongestion.low = 8/10 ∧
    calculateNetworkMultiplier WCCongestion.medium = 1 ∧
    calculateNetworkMultiplier WCCongestion.high = 12/10 :=
  C5_gas_scaled_floor
    { isLocked := false, settings := defaultSecuritySettings, suspiciousRand := 1/2,
      phishingRand := 1/2, hasContext := true, frequency := TxFrequency.medium,
      gasOptEnabled := true, congestion := WCCongestion.apocalyptic, hour := 0, day := 1,
      personality := RiskTolerance.moderate, personalityRand := 0,
      baseGasPriceWei := 100 } ⟨rfl, rfl⟩

/-- C7 counterexample: on the series `[1, 2, 3, 1]` with period 2 the
source RSI uses the two OLDEST deltas (both gains, so average loss 0 and
output 100), while the claimed most-recent-deltas formula gives
`100 - 100 / (1 + (1/2) / 1) = 100/3`. -/
theorem C7_cex :
    calculateRSI [1, 2, 3, 1] 2 = 100 ∧
    rsiSpecRecent [1, 2, 3, 1] 2 = 100/3 ∧
    (100 : ℚ) ≠ 100/3 := by
  refine ⟨?_, ?_, by norm_num⟩
  · norm_num [calculateRSI]
  · norm_num [rsiSpecRecent]

/-- C7 (amended): `calculateRSI` equals the claimed formula with "the
most recent `period` deltas" corrected to the first (oldest) `period`
deltas: neutral 50 on insufficient history, 100 when the average loss is
0, else `100 - 100 / (1 + RS)` with `RS` the ratio of average gain to
average loss magnitude over the oldest `period` deltas. -/
theorem C7_rsi_oldest_deltas (prices : List ℚ) (period : Nat) :
    calculateRSI prices period = rsiSpecOldest prices period := by
  unfold calculateRSI rsiSpecOldest
  by_cases hlen : prices.length < period + 1
  · simp [hlen]
  · simp only [hlen, if_false]
    push_neg at hlen
    have hg := sum_take_zipWith_deltas (fun c => if 0 < c then c else 0) period prices hlen
    have hl := sum_take_zipWith_deltas (fun c => if 0 < c then 0 else -c) period prices hlen
    have hgain : (∑ i in Finset.range period,
        (fun c => if 0 < c then c else 0) (prices.getD (i + 1) 0 - prices.getD i 0)) =
        ∑ i in Finset.range period, max (prices.getD (i + 1) 0 - prices.getD i 0) 0 :=
      Finset.sum_congr rfl (fun i _ => posPartEq _)
    have hloss : (∑ i in Finset.range period,
        (fun c => if 0 < c then 0 else -c) (prices.getD (i + 1) 0 - prices.getD i 0)) =
        ∑ i in Finset.range period, max (prices.getD i 0 - prices.getD (i + 1) 0) 0 :=
      Finset.sum_congr rfl (fun i _ => (negPartEq _).trans (by rw [neg_sub]))
    rw [hg, hl, hgain, hloss]

/-- C1 counterexample: for a 2 ETH transfer (over the 1 ETH default
limit) the pipeline does reject with the distinct hard-limit error, but
the heuristic risk scoring has already run before the hard-limit check:
`riskScoring` appears in the executed trace, refuting the claim that the
hard rule short-circuits before any heuristic scoring. -/
theorem C1_cex :
    (sendTransaction
      { isLocked := false, settings := defaultSecuritySettings, suspiciousRand := 1/2,
        phishingRand := 1/2, hasContext := true, frequency := TxFrequency.medium,
        gasOptEnabled := true, congestion := WCCongestion.medium, hour := 12, day := 3,
        personality := RiskTolerance.moderate, personalityRand := 0,
        baseGasPriceWei := 100 } ['0', 'x', 'a', 'b'] (2 * 10 ^ 18)).1 =
      Except.error SendError.hardLimitExceeded ∧
    SendStep.riskScoring ∈
      (sendTransaction
        { isLocked := false, settings := defaultSecuritySettings, suspiciousRand := 1/2,
          phishingRand := 1/2, hasContext := true, frequency := TxFrequency.medium,
          gasOptEnabled := true, congestion := WCCongestion.medium, hour := 12, day := 3,
          personality := RiskTolerance.moderate, personalityRand := 0,
          baseGasPriceWei := 100 } ['0', 'x', 'a', 'b'] (2 * 10 ^ 18)).2 := by
  exact ⟨rfl, by decide⟩

/-- C1 (amended): for an unlocked wallet, any transfer strictly over the
per-transaction limit is rejected with the distinct hard-limit error
regardless of recipient and behavior inputs, and a transfer exactly at
the limit passes the hard rule; however the rejection does NOT
short-circuit before heuristic scoring — the risk scoring and gas
optimization steps run first, as the recorded trace shows. -/
theorem C1_hard_limit_after_scoring (env : WalletEnv) (toAddr : List Char)
    (valueWei : Nat) (hunlocked : env.isLocked = false) :
    (env.settings.perTransactionLimitWei < valueWei →
      (sendTransaction env toAddr valueWei).1 = Except.error SendError.hardLimitExceeded ∧
      (sendTransaction env toAddr valueWei).2 =
        [SendStep.riskScoring, SendStep.gasOptimization]) ∧
    (valueWei ≤ env.settings.perTransactionLimitWei →
      (sendTransaction env toAddr valueWei).1 ≠ Except.error SendError.hardLimitExceeded) := by
  constructor
  · intro hover
    unfold sendTransaction
    rw [if_neg (by simp [hunlocked])]
    unfold performSecurityChecks
    rw [if_pos hover]
    exact ⟨rfl, rfl⟩
  · intro hle heq
    unfold sendTransaction at heq
    rw [if_neg (by simp [hunlocked])] at heq
    unfold performSecurityChecks at heq
    rw [if_neg (by omega)] at heq
    by_cases hw : env.settings.whitelistedAddresses ≠ [] ∧
        (toAddr.map Char.toLower) ∉ env.settings.whitelistedAddresses
    · rw [if_pos hw] at heq
      simp at heq
    · rw [if_neg hw] at heq
      by_cases hph : env.settings.phishingProtection = true ∧
          detectPhishing env.phishingRand = true
      · rw [if_pos hph] at heq
        simp at heq
      · rw [if_neg hph] at heq
        simp only [apply_ite Prod.fst] at heq
        split_ifs at heq
        simp_all

/-- C1 witness: a concrete over-limit transfer is rejected with the
hard-limit error after scoring and gas optimization ran. -/
theorem C1_hard_limit_after_scoring_witness :
    (sendTransaction
      { isLocked := false, settings := defaultSecuritySettings, suspiciousRand := 1/2,
        phishingRand := 1/2, hasContext := false, frequency := TxFrequency.high,
        gasOptEnabled := true, congestion := WCCongestion.high, hour := 3, day := 0,
        personality := RiskTolerance.conservative, personalityRand := 0,
        baseGasPriceWei := 50 } ['0', 'x', 'c', 'd'] (3 * 10 ^ 18)).1 =
      Except.error SendError.hardLimitExceeded ∧
    (sendTransaction
      { isLocked := false, settings := defaultSecuritySettings, suspiciousRand := 1/2,
        phishingRand := 1/2, hasContext := false, frequency := TxFrequency.high,
        gasOptEnabled := true, congestion := WCCongestion.high, hour := 3, day := 0,
        personality := RiskTolerance.conservative, personalityRand := 0,
        baseGasPriceWei := 50 } ['0', 'x', 'c', 'd'] (3 * 10 ^ 18)).2 =
      [SendStep.riskScoring, SendStep.gasOptimization] :=
  (C1_hard_limit_after_scoring
    { isLocked := false, settings := defaultSecuritySettings, suspiciousRand := 1/2,
      phishingRand := 1/2, hasContext := false, frequency := TxFrequency.high,
      gasOptEnabled := true, congestion := WCCongestion.high, hour := 3, day := 0,
      personality := RiskTolerance.conservative, personalityRand := 0,
      baseGasPriceWei := 50 } ['0', 'x', 'c', 'd'] (3 * 10 ^ 18) rfl).1
    (by norm_num [defaultSecuritySettings])

/-- C3 counterexample: on a collaborator failure `getPrice` does not
surface an error — it returns data fabricated from the random source
(price `1000` for draw 0, price `2500` for draw 1/2), and
`getHistoricalPrices` likewise returns random mock data, so the outputs
depend on the random generator rather than real data. -/
theorem C3_cex :
    (getPrice "eth" (Except.error ()) (fun _ => 0)).price = 1000 ∧
    (getPrice "eth" (Except.error ()) (fun _ => 1/2)).price = 2500 ∧
    getPrice "eth" (Except.error ()) (fun _ => 0) ≠
      getPrice "eth" (Except.error ()) (fun _ => 1/2) ∧
    getHistoricalPrices (Except.error ()) 1 0 (fun _ => 0) ≠
      getHistoricalPrices (Except.error ()) 1 0 (fun _ => 1/2) := by
  refine ⟨by norm_num [getPrice], by norm_num [getPrice], ?_, ?_⟩
  · intro h
    have hp := congrArg PriceDataCore.price h
    norm_num [getPrice] at hp
  · intro h
    have hp := congrArg (List.map HistoricalPrice.price) h
    have hr : List.range (1 + 1) = [0, 1] := rfl
    simp only [getHistoricalPrices, hr, List.map_cons, List.map_nil,
      List.cons.injEq] at hp
    norm_num at hp

/-- C3 (amended): the gas-optimization decision surfaces an explicit
failure to the caller whenever either collaborator snapshot is
unavailable; `getPrice` and `getHistoricalPrices`, however, swallow the
failure and return fabricated data that varies with the random source. -/
theorem C3_failure_handling :
    (∀ (gasRes : Except Unit GasTier) (t : Nat) (u : Urgency),
      makeGasOptimizationDecision (Except.error ()) gasRes t u = Except.error ()) ∧
    (∀ (net : NetworkConditions) (t : Nat) (u : Urgency),
      makeGasOptimizationDecision (Except.ok net) (Except.error ()) t u =
        Except.error ()) ∧
    (∃ r r' : Nat → ℚ,
      getPrice "eth" (Except.error ()) r ≠ getPrice "eth" (Except.error ()) r') ∧
    (∃ r r' : Nat → ℚ,
      getHistoricalPrices (Except.error ()) 1 0 r ≠
        getHistoricalPrices (Except.error ()) 1 0 r') := by
  refine ⟨?_, ?_, ⟨fun _ => 0, fun _ => 1/2, ?_⟩, ⟨fun _ => 0, fun _ => 1/2, ?_⟩⟩
  · intro gasRes t u
    cases gasRes <;> rfl
  · intro net t u
    rfl
  · intro h
    have hp := congrArg PriceDataCore.price h
    norm_num [getPrice] at hp
  · intro h
    have hp := congrArg (List.map HistoricalPrice.price) h
    have hr : List.range (1 + 1) = [0, 1] := rfl
    simp only [getHistoricalPrices, hr, List.map_cons, List.map_nil,
      List.cons.injEq] at hp
    norm_num at hp

/-- C8: for a risk score produced by `calculateRiskScore` (with the
nonnegative square root of the return variance passed as `vol`), the
trading decision sizes the position as
`clamp(0.02 * (1 - riskScore) * confidence, 0.01, 0.05)` with
`confidence = |score|` taken after risk dampening; consequently the
returned amount lies in `[0.01, 0.05]` and the returned confidence and
risk score lie in `[0, 1]`. -/
theorem C8_position_sizing (pd : PriceDataCore) (ti : Option TechnicalIndicators)
    (s : MarketSentiment) (vol rs : ℚ) (hvol : 0 ≤ vol)
    (hrs : rs = calculateRiskScore pd vol s) :
    (generateTradingDecision pd ti s rs).amount =
      max (1/100) (min (5/100)
        (2/100 * (1 - (generateTradingDecision pd ti s rs).riskScore) *
          (generateTradingDecision pd ti s rs).confidence)) ∧
    (generateTradingDecision pd ti s rs).confidence =
      |rawScore ti s * (1 - rs * (1/2))| ∧
    1/100 ≤ (generateTradingDecision pd ti s rs).amount ∧
    (generateTradingDecision pd ti s rs).amount ≤ 5/100 ∧
    0 ≤ (generateTradingDecision pd ti s rs).confidence ∧
    (generateTradingDecision pd ti s rs).confidence ≤ 1 ∧
    0 ≤ (generateTradingDecision pd ti s rs).riskScore ∧
    (generateTradingDecision pd ti s rs).riskScore ≤ 1 := by
  have hge : 1/2 ≤ rs := hrs ▸ calculateRiskScore_ge_half pd vol s hvol
  have hle : rs ≤ 1 := hrs ▸ calculateRiskScore_le_one pd vol s
  have hraw := rawScore_abs_le ti s
  have hdamp0 : (0:ℚ) ≤ 1 - rs * (1/2) := by linarith
  have hdamp1 : 1 - rs * (1/2) ≤ 1 := by linarith
  have hconf1 : |rawScore ti s * (1 - rs * (1/2))| ≤ 1 := by
    rw [abs_mul]
    have h1 : |1 - rs * (1/2)| ≤ 1 := by
      rw [abs_of_nonneg hdamp0]
      exact hdamp1
    calc |rawScore ti s| * |1 - rs * (1/2)| ≤ (85/100) * 1 :=
          mul_le_mul hraw h1 (abs_nonneg _) (by norm_num)
      _ ≤ 1 := by norm_num
  refine ⟨rfl, rfl, le_max_left _ _, max_le (by norm_num) (min_le_left _ _),
    abs_nonneg _, hconf1, ?_, ?_⟩
  · show (0:ℚ) ≤ rs
    linarith
  · show rs ≤ 1
    exact hle

/-- C8 witness: the bounds at a concrete snapshot (no indicators, zero
volatility). -/
theorem C8_position_sizing_witness :
    (generateTradingDecision
        { symbol := "ETH", price := 100, change24h := 0, changePercent24h := 0,
          marketCap := 0, volume24h := 0 } none
        (analyzeMarketSentiment
          { symbol := "ETH", price := 100, change24h := 0, changePercent24h := 0,
            marketCap := 0, volume24h := 0 })
        (calculateRiskScore
          { symbol := "ETH", price := 100, change24h := 0, changePercent24h := 0,
            marketCap := 0, volume24h := 0 } 0
          (analyzeMarketSentiment
            { symbol := "ETH", price := 100, change24h := 0, changePercent24h := 0,
              marketCap := 0, volume24h := 0 }))).amount =
      max (1/100) (min (5/100)
        (2/100 *
          (1 - (generateTradingDecision
            { symbol := "ETH", price := 100, change24h := 0, changePercent24h := 0,
              marketCap := 0, volume24h := 0 } none
            (analyzeMarketSentiment
              { symbol := "ETH", price := 100, change24h := 0, changePercent24h := 0,
                marketCap := 0, volume24h := 0 })
            (calculateRiskScore
              { symbol := "ETH", price := 100, change24h := 0, changePercent24h := 0,
                marketCap := 0, volume24h := 0 } 0
              (analyzeMarketSentiment
                { symbol := "ETH", price := 100, change24h := 0, changePercent24h := 0,
                  marketCap := 0, volume24h := 0 }))).riskScore) *
          (generateTradingDecision
            { symbol := "ETH", price := 100, change24h := 0, changePercent24h := 0,
              marketCap := 0, volume24h := 0 } none
            (analyzeMarketSentiment
              { symbol := "ETH", price := 100, change24h := 0, changePercent24h := 0,
                marketCap := 0, volume24h := 0 })
            (calculateRiskScore
              { symbol := "ETH", price := 100, change24h := 0, changePercent24h := 0,
                marketCap := 0, volume24h := 0 } 0
              (analyzeMarketSentiment
                { symbol := "ETH", price := 100, change24h := 0, changePercent24h := 0,
                  marketCap := 0, volume24h := 0 }))).confidence)) ∧
    (generateTradingDecision
        { symbol := "ETH", price := 100, change24h := 0, changePercent24h := 0,
          marketCap := 0, volume24h := 0 } none
        (analyzeMarketSentiment
          { symbol := "ETH", price := 100, change24h := 0, changePercent24h := 0,
            marketCap := 0, volume24h := 0 })
        (calculateRiskScore
          { symbol := "ETH", price := 100, change24h := 0, changePercent24h := 0,
            marketCap := 0, volume24h := 0 } 0
          (analyzeMarketSentiment
            { symbol := "ETH", price := 100, change24h := 0, changePercent24h := 0,
              marketCap := 0, volume24h := 0 }))).confidence =
      |rawScore none
          (analyzeMarketSentiment
            { symbol := "ETH", price := 100, change24h := 0, changePercent24h := 0,
              marketCap := 0, volume24h := 0 }) *
        (1 - calculateRiskScore
            { symbol := "ETH", price := 100, change24h := 0, changePercent24h := 0,
              marketCap := 0, volume24h := 0 } 0
            (analyzeMarketSentiment
              { symbol := "ETH", price := 100, change24h := 0, changePercent24h := 0,
                marketCap := 0, volume24h := 0 }) * (1/2))| ∧
    1/100 ≤ (generateTradingDecision
        { symbol := "ETH", price := 100, change24h := 0, changePercent24h := 0,
          marketCap := 0, volume24h := 0 } none
        (analyzeMarketSentiment
          { symbol := "ETH", price := 100, change24h := 0, changePercent24h := 0,
            marketCap := 0, volume24h := 0 })
        (calculateRiskScore
          { symbol := "ETH", price := 100, change24h := 0, changePercent24h := 0,
            marketCap := 0, volume24h := 0 } 0
          (analyzeMarketSentiment
            { symbol := "ETH", price := 100, change24h := 0, changePercent24h := 0,
              marketCap := 0, volume24h := 0 }))).amount ∧
    (generateTradingDecision
        { symbol := "ETH", price := 100, change24h := 0, changePercent24h := 0,
          marketCap := 0, volume24h := 0 } none
        (analyzeMarketSentiment
          { symbol := "ETH", price := 100, change24h := 0, changePercent24h := 0,
            marketCap := 0, volume24h := 0 })
        (calculateRiskScore
          { symbol := "ETH", price := 100, change24h := 0, changePercent24h := 0,
            marketCap := 0, volume24h := 0 } 0
          (analyzeMarketSentiment
            { symbol := "ETH", price := 100, change24h := 0, changePercent24h := 0,
              marketCap := 0, volume24h := 0 }))).amount ≤ 5/100 ∧
    0 ≤ (generateTradingDecision
        { symbol := "ETH", price := 100, change24h := 0, changePercent24h := 0,
          marketCap := 0, volume24h := 0 } none
        (analyzeMarketSentiment
          { symbol := "ETH", price := 100, change24h := 0, changePercent24h := 0,
            marketCap := 0, volume24h := 0 })
        (calculateRiskScore
          { symbol := "ETH", price := 100, change24h := 0, changePercent24h := 0,
            marketCap := 0, volume24h := 0 } 0
          (analyzeMarketSentiment
            { symbol := "ETH", price := 100, change24h := 0, changePercent24h := 0,
              marketCap := 0, volume24h := 0 }))).confidence ∧
    (generateTradingDecision
        { symbol := "ETH", price := 100, change24h := 0, changePercent24h := 0,
          marketCap := 0, volume24h := 0 } none
        (analyzeMarketSentiment
          { symbol := "ETH", price := 100, change24h := 0, changePercent24h := 0,
            marketCap := 0, volume24h := 0 })
        (calculateRiskScore
          { symbol := "ETH", price := 100, change24h := 0, changePercent24h := 0,
            marketCap := 0, volume24h := 0 } 0
          (analyzeMarketSentiment
            { symbol := "ETH", price := 100, change24h := 0, changePercent24h := 0,
              marketCap := 0, volume24h := 0 }))).confidence ≤ 1 ∧
    0 ≤ (generateTradingDecision
        { symbol := "ETH", price := 100, change24h := 0, changePercent24h := 0,
          marketCap := 0, volume24h := 0 } none
        (analyzeMarketSentiment
          { symbol := "ETH", price := 100, change24h := 0, changePercent24h := 0,
            marketCap := 0, volume24h := 0 })
        (calculateRiskScore
          { symbol := "ETH", price := 100, change24h := 0, changePercent24h := 0,
            marketCap := 0, volume24h := 0 } 0
          (analyzeMarketSentiment
            { symbol := "ETH", price := 100, change24h := 0, changePercent24h := 0,
              marketCap := 0, volume24h := 0 }))).riskScore ∧
    (generateTradingDecision
        { symbol := "ETH", price := 100, change24h := 0, changePercent24h := 0,
          marketCap := 0, volume24h := 0 } none
        (analyzeMarketSentiment
          { symbol := "ETH", price := 100, change24h := 0, changePercent24h := 0,
            marketCap := 0, volume24h := 0 })
        (calculateRiskScore
          { symbol := "ETH", price := 100, change24h := 0, changePercent24h := 0,
            marketCap := 0, volume24h := 0 } 0
          (analyzeMarketSentiment
            { symbol := "ETH", price := 100, change24h := 0, changePercent24h := 0,
              marketCap := 0, volume24h := 0 }))).riskScore ≤ 1 :=
  C8_position_sizing
    { symbol := "ETH", price := 100, change24h := 0, changePercent24h := 0,
      marketCap := 0, volume24h := 0 } none
    (analyzeMarketSentiment
      { symbol := "ETH", price := 100, change24h := 0, changePercent24h := 0,
        marketCap := 0, volume24h := 0 }) 0
    (calculateRiskScore
      { symbol := "ETH", price := 100, change24h := 0, changePercent24h := 0,
        marketCap := 0, volume24h := 0 } 0
      (analyzeMarketSentiment
        { symbol := "ETH", price := 100, change24h := 0, changePercent24h := 0,
          marketCap := 0, volume24h := 0 })) le_rfl rfl

/-- C10: with fewer than 14 historical points the indicator computation
returns the empty map, the pre-dampening score is at most `-0.15` (the
RSI branches cannot fire and the moving-average and MACD comparisons
contribute their negative terms), and the trading decision of the
successful pipeline is never `buy`. -/
theorem C10_no_buy_short_history (asset : String) (pd : PriceDataCore)
    (histPrices : List ℚ) (volatility : ℚ) (h : histPrices.length < 14) :
    calculateTechnicalIndicators histPrices = none ∧
    rawScore (calculateTechnicalIndicators histPrices) (analyzeMarketSentiment pd) ≤
      -(15/100) ∧
    (makeAITradingDecision asset (Except.ok pd) (Except.ok histPrices) volatility).action ≠
      TradeAction.buy := by
  have hti : calculateTechnicalIndicators histPrices = none := by
    unfold calculateTechnicalIndicators
    rw [if_pos h]
  have hraw : ∀ s : MarketSentiment, rawScore none s ≤ -(15/100) := by
    intro s
    have j1 : ∀ b : Option ℚ, jsLt none b = false := fun b => by cases b <;> rfl
    have j2 : ∀ b : Option ℚ, jsGt none b = false := fun b => by cases b <;> rfl
    unfold rawScore
    simp only [tiField, Option.map_none', j1, j2, Bool.false_eq_true, if_false]
    split_ifs <;> norm_num
  refine ⟨hti, by rw [hti]; exact hraw _, ?_⟩
  show (generateTradingDecision pd (calculateTechnicalIndicators histPrices)
      (analyzeMarketSentiment pd)
      (calculateRiskScore pd volatility (analyzeMarketSentiment pd))).action ≠
    TradeAction.buy
  rw [hti]
  have hrs := calculateRiskScore_le_one pd volatility (analyzeMarketSentiment pd)
  have hdampn : (0:ℚ) ≤
      1 - calculateRiskScore pd volatility (analyzeMarketSentiment pd) * (1/2) := by
    linarith
  have hscore : rawScore none (analyzeMarketSentiment pd) *
      (1 - calculateRiskScore pd volatility (analyzeMarketSentiment pd) * (1/2)) ≤ 0 := by
    have := mul_le_mul_of_nonneg_right
      (le_trans (hraw (analyzeMarketSentiment pd)) (by norm_num : -(15/100 : ℚ) ≤ 0)) hdampn
    simpa using this
  unfold generateTradingDecision
  simp only
  rw [if_neg (by
    rintro ⟨hgt, -⟩
    linarith)]
  split_ifs <;> simp

/-- C10 witness: the empty history (0 points, fewer than 14) never
produces a buy decision. -/
theorem C10_no_buy_short_history_witness :
    calculateTechnicalIndicators [] = none ∧
    rawScore (calculateTechnicalIndicators [])
      (analyzeMarketSentiment
        { symbol := "ETH", price := 100, change24h := 0, changePercent24h := 0,
          marketCap := 0, volume24h := 0 }) ≤ -(15/100) ∧
    (makeAITradingDecision "ETH"
      (Except.ok
        { symbol := "ETH", price := 100, change24h := 0, changePercent24h := 0,
          marketCap := 0, volume24h := 0 })
      (Except.ok []) 0).action ≠ TradeAction.buy :=
  C10_no_buy_short_history "ETH"
    { symbol := "ETH", price := 100, change24h := 0, changePercent24h := 0,
      marketCap := 0, volume24h := 0 } [] 0 (by norm_num)

end Tempest
